import Mathlib

/-!
Verification of the kaveri location-search tools against their written
specification.  The Lean definitions below are shallow embeddings of the
Python sources: each function mirrors one Python function, with network
calls replaced by explicit outcome scripts (an attempt either raises an
exception, modelled as none or as an error value, or returns a list of
rows), wall-clock time passed as an explicit argument, and the SQLite
database modelled as in-memory tables together with the connection flag
that controls foreign-key enforcement.
-/

namespace Kaveri

/-- Python truthiness of an optional integer: None and 0 are falsy, every
other integer is truthy.  Used wherever the source writes a bare
`if some_code:` guard on an optional code. -/
def truthyInt : Option Int → Bool
  | none => false
  | some c => c != 0

/-- Byte-wise comparison of char lists, the order SQLite uses for plain
text ORDER BY on the name columns of this database. -/
def charListLe : List Char → List Char → Bool
  | [], _ => true
  | _ :: _, [] => false
  | a :: as, b :: bs =>
      if a.toNat < b.toNat then true
      else if b.toNat < a.toNat then false
      else charListLe as bs

/-- String comparison used by the ORDER BY columns of the location store. -/
def strLe (a b : String) : Bool := charListLe a.data b.data

/-- Stable insertion of one element into a name-sorted list. -/
def insertByName (name : α → String) (x : α) : List α → List α
  | [] => [x]
  | y :: ys => if strLe (name y) (name x) then y :: insertByName name x ys else x :: y :: ys

/-- Stable sort by display name, modelling the ORDER BY name clauses of
the location queries. -/
def sortByName (name : α → String) : List α → List α
  | [] => []
  | x :: xs => insertByName name x (sortByName name xs)

end Kaveri

namespace KaveriIndexer

/-!
kaveri_api_indexer.py: the hierarchy indexer that crawls the remote
location API into a local SQLite database.
-/

/-- One network attempt of an endpoint, as seen by api_call: none models
the try block raising (connection error, HTTP error status, bad JSON),
some rows models response.json() returning a list. -/
def AttemptScript (ρ : Type) := Nat → Option (List ρ)

/-- Result of api_call together with the number of attempts that were
actually made, so that the retry behaviour is observable. -/
structure ApiOutcome (ρ : Type) where
  rows : List ρ
  attempts : Nat
deriving DecidableEq

/-- The retry loop body of api_call (kaveri_api_indexer.py lines 106 to
123): fuel counts the remaining loop iterations, k is the index of the
next attempt.  A successful attempt returns its JSON list at once; an
exception on the final attempt returns the empty list; an exception on an
earlier attempt backs off and retries.  The fuel-exhausted case is the
fall-through return of the empty list after the for loop. -/
def apiCallGo (script : AttemptScript ρ) : Nat → Nat → ApiOutcome ρ
  | 0, k => ⟨[], k⟩
  | fuel + 1, k =>
      match script k with
      | some rows => ⟨rows, k + 1⟩
      | none => if fuel = 0 then ⟨[], k + 1⟩ else apiCallGo script fuel (k + 1)

/-- api_call(endpoint, payload, retries): makes up to retries attempts and
never lets an exception escape; the endpoint and payload are abstracted
into the attempt script. -/
def api_call (script : AttemptScript ρ) (retries : Nat) : ApiOutcome ρ :=
  apiCallGo script retries 0

/-- District row as stored in the districts table (display-name columns
beyond the English name carry no logic and are represented by nameEn). -/
structure DistrictRowDb where
  code : Int
  nameEn : String
deriving DecidableEq

/-- Taluka row as stored in the talukas table, holding its parent district
code. -/
structure TalukaRowDb where
  code : Int
  nameEn : String
  districtCode : Int
deriving DecidableEq

/-- Hobli row as stored in the hoblis table, holding its parent taluka
code. -/
structure HobliRowDb where
  code : Int
  nameEn : String
  talukCode : Int
deriving DecidableEq

/-- Village row as stored in the villages table.  The primary key of the
table is the triple (village code, hobli code, ulb code). -/
structure VillageRowDb where
  code : Int
  nameEn : String
  hobliCode : Int
  ulbCode : Int
  isUrban : Bool
deriving DecidableEq

/-- The SQLite database of the indexer: the four location tables plus the
connection flag that decides whether declared FOREIGN KEY clauses are
enforced.  SQLite only enforces them after PRAGMA foreign_keys = ON, and
no file of this repository ever issues that pragma. -/
structure Db where
  foreignKeysOn : Bool
  districts : List DistrictRowDb
  talukas : List TalukaRowDb
  hoblis : List HobliRowDb
  villages : List VillageRowDb
deriving DecidableEq

/-- setup_database (kaveri_api_indexer.py lines 31 to 99): connects and
creates the tables, whose schemas declare FOREIGN KEY references, but
never enables foreign-key enforcement, so the connection keeps the SQLite
default of not enforcing them. -/
def setup_database : Db :=
  { foreignKeysOn := false, districts := [], talukas := [], hoblis := [], villages := [] }

/-- INSERT OR REPLACE keyed on a single primary-key column: the row with
the same key is replaced in place, otherwise the new row is appended. -/
def upsertBy (key : ρ → Int) (r : ρ) (rows : List ρ) : List ρ :=
  if rows.any (fun x => key x == key r) then
    rows.map (fun x => if key x == key r then r else x)
  else rows ++ [r]

/-- INSERT OR REPLACE INTO districts. -/
def insertDistrict (db : Db) (r : DistrictRowDb) : Except String Db :=
  .ok { db with districts := upsertBy (fun x => x.code) r db.districts }

/-- INSERT OR REPLACE INTO talukas.  When the connection enforces foreign
keys a row whose districtCode has no matching parent is rejected with the
referential-integrity error; on the default connection the orphan row is
accepted. -/
def insertTaluka (db : Db) (r : TalukaRowDb) : Except String Db :=
  if db.foreignKeysOn && !(db.districts.any (fun d => d.code == r.districtCode)) then
    .error "ReferentialIntegrityError"
  else
    .ok { db with talukas := upsertBy (fun x => x.code) r db.talukas }

/-- INSERT OR REPLACE INTO hoblis, with the same foreign-key behaviour
toward the talukas table. -/
def insertHobli (db : Db) (r : HobliRowDb) : Except String Db :=
  if db.foreignKeysOn && !(db.talukas.any (fun t => t.code == r.talukCode)) then
    .error "ReferentialIntegrityError"
  else
    .ok { db with hoblis := upsertBy (fun x => x.code) r db.hoblis }

/-- The composite primary key of the villages table: village code, hobli
code and ulb code together. -/
def sameVillageKey (x r : VillageRowDb) : Bool :=
  x.code == r.code && x.hobliCode == r.hobliCode && x.ulbCode == r.ulbCode

/-- INSERT OR REPLACE INTO villages, with the same foreign-key behaviour
toward the hoblis table (the composite primary key is modelled by
comparing all three key columns). -/
def insertVillage (db : Db) (r : VillageRowDb) : Except String Db :=
  if db.foreignKeysOn && !(db.hoblis.any (fun h => h.code == r.hobliCode)) then
    .error "ReferentialIntegrityError"
  else
    .ok { db with villages :=
      if db.villages.any (fun x => sameVillageKey x r) then
        db.villages.map (fun x => if sameVillageKey x r then r else x)
      else db.villages ++ [r] }

/-- District row of the GetDistrictAsync JSON response. -/
structure DistrictJson where
  districtCode : Int
  nameEn : String
deriving DecidableEq

/-- Taluka row of the GetTalukaAsync JSON response. -/
structure TalukaJson where
  talukCode : Int
  nameEn : String
deriving DecidableEq

/-- Hobli row of the GetHobliAsync JSON response. -/
structure HobliJson where
  hoblicode : Int
  nameEn : String
deriving DecidableEq

/-- Village row of the GetVillageAsync JSON response. -/
structure VillageJson where
  villagecode : Int
  nameEn : String
  ulbcode : Int
  isurban : Bool
deriving DecidableEq

/-- The remote hierarchy API as seen by the indexer: an attempt script per
endpoint, the child endpoints keyed by the parent code sent in the
payload. -/
structure IndexerEnv where
  districtCalls : AttemptScript DistrictJson
  talukaCalls : Int → AttemptScript TalukaJson
  hobliCalls : Int → AttemptScript HobliJson
  villageCalls : Int → AttemptScript VillageJson

/-- fetch_districts (lines 126 to 165): calls GetDistrictAsync through
api_call; an empty result, whether a genuinely empty list or the
empty-list return after exhausted retries, prints an error and returns no
districts; otherwise rows are upserted, skipping the dummy district with
code 0, and the kept rows are returned. -/
def fetch_districts (env : IndexerEnv) (db : Db) : List DistrictJson × Db :=
  let data := (api_call env.districtCalls 3).rows
  if data.isEmpty then ([], db)
  else
    data.foldl
      (fun acc d =>
        if d.districtCode == 0 then acc
        else
          match insertDistrict acc.2 ⟨d.districtCode, d.nameEn⟩ with
          | .ok db2 => (acc.1 ++ [d], db2)
          | .error _ => acc)
      ([], db)

/-- fetch_talukas (lines 168 to 199): calls GetTalukaAsync for one
district; an empty result returns no talukas, otherwise every row is
upserted tagged with the parent district code and returned. -/
def fetch_talukas (env : IndexerEnv) (db : Db) (districtCode : Int) :
    List TalukaJson × Db :=
  let data := (api_call (env.talukaCalls districtCode) 3).rows
  if data.isEmpty then ([], db)
  else
    data.foldl
      (fun acc t =>
        match insertTaluka acc.2 ⟨t.talukCode, t.nameEn, districtCode⟩ with
        | .ok db2 => (acc.1 ++ [t], db2)
        | .error _ => acc)
      ([], db)

/-- fetch_hoblis (lines 202 to 236), analogous to fetch_talukas. -/
def fetch_hoblis (env : IndexerEnv) (db : Db) (talukCode : Int) :
    List HobliJson × Db :=
  let data := (api_call (env.hobliCalls talukCode) 3).rows
  if data.isEmpty then ([], db)
  else
    data.foldl
      (fun acc h =>
        match insertHobli acc.2 ⟨h.hoblicode, h.nameEn, talukCode⟩ with
        | .ok db2 => (acc.1 ++ [h], db2)
        | .error _ => acc)
      ([], db)

/-- fetch_villages (lines 239 to 279), analogous to fetch_talukas. -/
def fetch_villages (env : IndexerEnv) (db : Db) (hobliCode : Int) :
    List VillageJson × Db :=
  let data := (api_call (env.villageCalls hobliCode) 3).rows
  if data.isEmpty then ([], db)
  else
    data.foldl
      (fun acc v =>
        match insertVillage acc.2 ⟨v.villagecode, v.nameEn, hobliCode, v.ulbcode, v.isurban⟩ with
        | .ok db2 => (acc.1 ++ [v], db2)
        | .error _ => acc)
      ([], db)

/-- Per-level ingestion counters of index_all. -/
structure IndexStats where
  districts : Nat
  talukas : Nat
  hoblis : Nat
  villages : Nat
deriving DecidableEq

/-- index_all (lines 282 to 389): sets up the database, fetches the
districts, optionally keeps only one requested district, then walks
district to taluka to hobli to village, accumulating the stats counters,
and finishes by writing the stats; the run never aborts, because every
fetch absorbs its own failures. -/
def index_all (env : IndexerEnv) (specific : Option Int) : IndexStats × Db :=
  let db := setup_database
  let (districts, db) := fetch_districts env db
  let statsDistricts := districts.length
  let districts :=
    if Kaveri.truthyInt specific then
      districts.filter (fun d => some d.districtCode == specific)
    else districts
  let step :=
    districts.foldl
      (fun (acc : IndexStats × Db) d =>
        let (talukas, db1) := fetch_talukas env acc.2 d.districtCode
        let afterTalukas :=
          talukas.foldl
            (fun (acc2 : IndexStats × Db) t =>
              let (hoblis, db2) := fetch_hoblis env acc2.2 t.talukCode
              let afterHoblis :=
                hoblis.foldl
                  (fun (acc3 : IndexStats × Db) h =>
                    let (villages, db3) := fetch_villages env acc3.2 h.hoblicode
                    ({ acc3.1 with villages := acc3.1.villages + villages.length }, db3))
                  (acc2.1, db2)
              ({ afterHoblis.1 with hoblis := afterHoblis.1.hoblis + hoblis.length },
               afterHoblis.2))
            (acc.1, db1)
        ({ afterTalukas.1 with talukas := afterTalukas.1.talukas + talukas.length },
         afterTalukas.2))
      (⟨statsDistricts, 0, 0, 0⟩, db)
  step

end KaveriIndexer

namespace CitizenAssistant

/-!
kaveri_citizen_assistant.py: the location repository, the combination
expander and the Selenium search bot with its saved-CAPTCHA reuse.
-/

/-- Row of the districts table of location_hierarchy.db. -/
structure DistrictRow where
  code : Int
  nameEn : String
deriving DecidableEq

/-- Row of the talukas table, carrying its parent district code. -/
structure TalukaRow where
  code : Int
  nameEn : String
  districtCode : Int
deriving DecidableEq

/-- Row of the hoblis table, carrying its parent taluka code. -/
structure HobliRow where
  code : Int
  nameEn : String
  talukCode : Int
deriving DecidableEq

/-- Row of the villages table, carrying its parent hobli code. -/
structure VillageRow where
  code : Int
  nameEn : String
  hobliCode : Int
deriving DecidableEq

/-- The location store read by LocationRepo: the four tables of
location_hierarchy.db. -/
structure LocationStore where
  districts : List DistrictRow
  talukas : List TalukaRow
  hoblis : List HobliRow
  villages : List VillageRow
deriving DecidableEq

/-- LocationRepo.districts: SELECT districtCode, districtNamee FROM
districts WHERE districtCode > 0 ORDER BY districtNamee. -/
def repoDistricts (s : LocationStore) : List DistrictRow :=
  Kaveri.sortByName (fun d => d.nameEn) (s.districts.filter (fun d => 0 < d.code))

/-- LocationRepo.talukas: rows filtered to one district when the argument
is truthy, all rows otherwise, ORDER BY talukNamee. -/
def repoTalukas (s : LocationStore) (districtCode : Option Int) : List TalukaRow :=
  let rows :=
    if Kaveri.truthyInt districtCode then
      s.talukas.filter (fun t => some t.districtCode == districtCode)
    else s.talukas
  Kaveri.sortByName (fun t => t.nameEn) rows

/-- LocationRepo.hoblis, analogous to repoTalukas. -/
def repoHoblis (s : LocationStore) (talukCode : Option Int) : List HobliRow :=
  let rows :=
    if Kaveri.truthyInt talukCode then
      s.hoblis.filter (fun h => some h.talukCode == talukCode)
    else s.hoblis
  Kaveri.sortByName (fun h => h.nameEn) rows

/-- LocationRepo.villages, analogous to repoTalukas. -/
def repoVillages (s : LocationStore) (hobliCode : Option Int) : List VillageRow :=
  let rows :=
    if Kaveri.truthyInt hobliCode then
      s.villages.filter (fun v => some v.hobliCode == hobliCode)
    else s.villages
  Kaveri.sortByName (fun v => v.nameEn) rows

/-- The location fields of SearchConfig that drive the expansion. -/
structure SearchCfg where
  districtCode : Option Int
  talukCode : Option Int
  hobliCode : Option Int
  villageCode : Option Int
  allTaluks : Bool
  allHoblis : Bool
  allVillages : Bool
deriving DecidableEq

/-- One expanded search target: the four codes together with the four
display names, as built by build_location_combinations. -/
structure Combo where
  districtCode : Int
  talukCode : Int
  hobliCode : Int
  villageCode : Int
  districtName : String
  talukName : String
  hobliName : String
  villageName : String
deriving DecidableEq

/-- The deduplication key of a combination: its four codes. -/
def comboKey (c : Combo) : Int × Int × Int × Int :=
  (c.districtCode, c.talukCode, c.hobliCode, c.villageCode)

/-- The district rows the expansion iterates over (lines 1341 to 1343):
all districts of the store, filtered to the configured district only when
one is given. -/
def districtRowsFor (s : LocationStore) (cfg : SearchCfg) : List DistrictRow :=
  let rows := repoDistricts s
  if Kaveri.truthyInt cfg.districtCode then
    rows.filter (fun d => some d.code == cfg.districtCode)
  else rows

/-- The taluka rows resolved under one district (lines 1347 to 1353): all
children when all_taluks is set, otherwise the children filtered to the
configured taluka when one is given. -/
def talukaRowsFor (s : LocationStore) (cfg : SearchCfg) (dCode : Int) : List TalukaRow :=
  if cfg.allTaluks then repoTalukas s (some dCode)
  else
    let rows := repoTalukas s (some dCode)
    if Kaveri.truthyInt cfg.talukCode then
      rows.filter (fun t => some t.code == cfg.talukCode)
    else rows

/-- The hobli rows resolved under one taluka (lines 1357 to 1362). -/
def hobliRowsFor (s : LocationStore) (cfg : SearchCfg) (tCode : Int) : List HobliRow :=
  if cfg.allHoblis then repoHoblis s (some tCode)
  else
    let rows := repoHoblis s (some tCode)
    if Kaveri.truthyInt cfg.hobliCode then
      rows.filter (fun h => some h.code == cfg.hobliCode)
    else rows

/-- The village rows resolved under one hobli (lines 1366 to 1371). -/
def villageRowsFor (s : LocationStore) (cfg : SearchCfg) (hCode : Int) : List VillageRow :=
  if cfg.allVillages then repoVillages s (some hCode)
  else
    let rows := repoVillages s (some hCode)
    if Kaveri.truthyInt cfg.villageCode then
      rows.filter (fun v => some v.code == cfg.villageCode)
    else rows

/-- The full candidate list of build_location_combinations before
deduplication: the four nested loops of lines 1345 to 1374. -/
def candidateCombos (s : LocationStore) (cfg : SearchCfg) : List Combo :=
  (districtRowsFor s cfg).flatMap (fun d =>
    (talukaRowsFor s cfg d.code).flatMap (fun t =>
      (hobliRowsFor s cfg t.code).flatMap (fun h =>
        (villageRowsFor s cfg h.code).map (fun v =>
          ⟨d.code, t.code, h.code, v.code, d.nameEn, t.nameEn, h.nameEn, v.nameEn⟩))))

/-- The duplicate-removal loop of lines 1377 to 1383: walk the candidate
list keeping a seen-set of code 4-tuples, appending a combination to the
output only when its key has not been seen. -/
def dedupCombos (seen : List (Int × Int × Int × Int)) : List Combo → List Combo
  | [] => []
  | c :: rest =>
      if comboKey c ∈ seen then dedupCombos seen rest
      else c :: dedupCombos (comboKey c :: seen) rest

/-- build_location_combinations (lines 1329 to 1388): the nested
expansion followed by order-preserving deduplication on the code
4-tuple. -/
def build_location_combinations (s : LocationStore) (cfg : SearchCfg) : List Combo :=
  dedupCombos [] (candidateCombos s cfg)

/-- The duplicate report of lines 1385 to 1386: when deduplication
removed anything, the count of removed combinations is logged; otherwise
nothing is reported. -/
def duplicateReport (s : LocationStore) (cfg : SearchCfg) : Option Nat :=
  let combos := candidateCombos s cfg
  let unique := build_location_combinations s cfg
  if unique.length < combos.length then some (combos.length - unique.length) else none

/-- Reference formulation of first-seen deduplication, written from the
specification sentence: keep each combination whose key did not occur
earlier in the list.  Stated separately from the loop translation so the
two can be proved to agree. -/
def keepFirstByKey : List Combo → List Combo
  | [] => []
  | c :: rest => c :: keepFirstByKey (rest.filter (fun x => !(comboKey x == comboKey c)))
termination_by l => l.length
decreasing_by
  simp only [List.length_cons]
  exact Nat.lt_succ_of_le (List.length_filter_le _ _)

end CitizenAssistant

namespace CitizenAssistant

/-- District row of the GetDistrictAsync response consumed by
build_location_hierarchy; the code is optional because the source reads
it with a defaulting get. -/
structure DistrictJsonCA where
  districtCode : Option Int
  nameEn : String
deriving DecidableEq

/-- Taluka row of the GetTalukaAsync response. -/
structure TalukaRespCA where
  talukCode : Option Int
  nameEn : String
deriving DecidableEq

/-- Taluka row after build_location_hierarchy tags it with the district
code it was fetched under. -/
structure TalukaCA where
  talukCode : Option Int
  nameEn : String
  districtCode : Int
deriving DecidableEq

/-- Hobli row of the GetHobliAsync response. -/
structure HobliRespCA where
  hoblicode : Option Int
  nameEn : String
deriving DecidableEq

/-- Hobli row tagged with its taluka code. -/
structure HobliCA where
  hoblicode : Option Int
  nameEn : String
  talukCode : Int
deriving DecidableEq

/-- Village row of the GetVillageAsync response. -/
structure VillageRespCA where
  villagecode : Option Int
  nameEn : String
deriving DecidableEq

/-- Village row tagged with its hobli code. -/
structure VillageCA where
  villagecode : Option Int
  nameEn : String
  hobliCode : Int
deriving DecidableEq

/-- The remote API as seen by build_location_hierarchy: each call either
raises (error) or returns its rows; child endpoints are keyed by the
parent code of the request payload. -/
structure CrawlEnv where
  districtsResp : Except String (List DistrictJsonCA)
  propertyTypesResp : Except String (List Int)
  talukasResp : Int → Except String (List TalukaRespCA)
  hoblisResp : Int → Except String (List HobliRespCA)
  villagesResp : Int → Except String (List VillageRespCA)

/-- The aggregate returned by build_location_hierarchy. -/
structure HierData where
  districts : List DistrictJsonCA
  talukas : List TalukaCA
  hoblis : List HobliCA
  villages : List VillageCA
  propertyTypes : List Int
deriving DecidableEq

/-- build_location_hierarchy (kaveri_citizen_assistant.py lines 91 to
183).  The root districts call is not wrapped in a try block, so its
exception aborts the whole build; the optional property-type fetch and
every per-node taluka, hobli and village fetch sit inside try blocks that
log and continue, so a failed subtree is skipped and the walk goes on.
Rows whose parent-level code is falsy are skipped before their children
are fetched. -/
def build_location_hierarchy (env : CrawlEnv) : Except String HierData :=
  match env.districtsResp with
  | .error e => .error e
  | .ok districts =>
      let propertyTypes :=
        match env.propertyTypesResp with
        | .ok l => l
        | .error _ => []
      let talukas :=
        districts.foldl
          (fun acc d =>
            match d.districtCode with
            | none => acc
            | some dcode =>
                if dcode == 0 then acc
                else
                  match env.talukasResp dcode with
                  | .ok rows => acc ++ rows.map (fun t => ⟨t.talukCode, t.nameEn, dcode⟩)
                  | .error _ => acc)
          ([] : List TalukaCA)
      let hoblis :=
        talukas.foldl
          (fun acc t =>
            match t.talukCode with
            | none => acc
            | some tcode =>
                if tcode == 0 then acc
                else
                  match env.hoblisResp tcode with
                  | .ok rows => acc ++ rows.map (fun h => ⟨h.hoblicode, h.nameEn, tcode⟩)
                  | .error _ => acc)
          ([] : List HobliCA)
      let villages :=
        hoblis.foldl
          (fun acc h =>
            match h.hoblicode with
            | none => acc
            | some hcode =>
                if hcode == 0 then acc
                else
                  match env.villagesResp hcode with
                  | .ok rows => acc ++ rows.map (fun v => ⟨v.villagecode, v.nameEn, hcode⟩)
                  | .error _ => acc)
          ([] : List VillageCA)
      .ok ⟨districts, talukas, hoblis, villages, propertyTypes⟩

/-- The SQLite database written by _write_sqlite: the four tables of
location_hierarchy.db plus the connection flag for foreign-key
enforcement.  The fresh connection opened by _write_sqlite keeps the
SQLite default of not enforcing the declared FOREIGN KEY clauses. -/
structure CaDb where
  foreignKeysOn : Bool
  districts : List DistrictJsonCA
  talukas : List TalukaCA
  hoblis : List HobliCA
  villages : List VillageCA
deriving DecidableEq

/-- INSERT OR REPLACE INTO talukas of _write_sqlite: under SQL semantics
a NULL parent reference always passes the foreign-key check, a non-NULL
one must match an existing district row when enforcement is on. -/
def caInsertTaluka (db : CaDb) (r : TalukaCA) : Except String CaDb :=
  if db.foreignKeysOn
      && !(db.districts.any (fun d => d.districtCode == some r.districtCode)) then
    .error "ReferentialIntegrityError"
  else
    .ok { db with talukas :=
      if db.talukas.any (fun x => x.talukCode == r.talukCode) then
        db.talukas.map (fun x => if x.talukCode == r.talukCode then r else x)
      else db.talukas ++ [r] }

/-- INSERT OR REPLACE INTO hoblis of _write_sqlite. -/
def caInsertHobli (db : CaDb) (r : HobliCA) : Except String CaDb :=
  if db.foreignKeysOn
      && !(db.talukas.any (fun t => t.talukCode == some r.talukCode)) then
    .error "ReferentialIntegrityError"
  else
    .ok { db with hoblis :=
      if db.hoblis.any (fun x => x.hoblicode == r.hoblicode) then
        db.hoblis.map (fun x => if x.hoblicode == r.hoblicode then r else x)
      else db.hoblis ++ [r] }

/-- INSERT OR REPLACE INTO villages of _write_sqlite. -/
def caInsertVillage (db : CaDb) (r : VillageCA) : Except String CaDb :=
  if db.foreignKeysOn
      && !(db.hoblis.any (fun h => h.hoblicode == some r.hobliCode)) then
    .error "ReferentialIntegrityError"
  else
    .ok { db with villages :=
      if db.villages.any (fun x => x.villagecode == r.villagecode) then
        db.villages.map (fun x => if x.villagecode == r.villagecode then r else x)
      else db.villages ++ [r] }

/-- Sequential executemany over the taluka rows; the first raised error
aborts the write, as an uncaught sqlite exception would. -/
def caInsertTalukas (db : CaDb) : List TalukaCA → Except String CaDb
  | [] => .ok db
  | r :: rest =>
      match caInsertTaluka db r with
      | .ok db2 => caInsertTalukas db2 rest
      | .error e => .error e

/-- Sequential executemany over the hobli rows. -/
def caInsertHoblis (db : CaDb) : List HobliCA → Except String CaDb
  | [] => .ok db
  | r :: rest =>
      match caInsertHobli db r with
      | .ok db2 => caInsertHoblis db2 rest
      | .error e => .error e

/-- Sequential executemany over the village rows. -/
def caInsertVillages (db : CaDb) : List VillageCA → Except String CaDb
  | [] => .ok db
  | r :: rest =>
      match caInsertVillage db r with
      | .ok db2 => caInsertVillages db2 rest
      | .error e => .error e

/-- _write_sqlite (lines 186 to 342): opens a fresh connection without
enabling foreign-key enforcement, recreates empty tables whose schemas
declare FOREIGN KEY clauses, then bulk-inserts districts, talukas, hoblis
and villages in that order. -/
def write_sqlite (data : HierData) : Except String CaDb :=
  let db : CaDb := { foreignKeysOn := false, districts := [], talukas := [], hoblis := [], villages := [] }
  let db := { db with districts := data.districts }
  match caInsertTalukas db data.talukas with
  | .error e => .error e
  | .ok db2 =>
      match caInsertHoblis db2 data.hoblis with
      | .error e => .error e
      | .ok db3 => caInsertVillages db3 data.villages

/-- The saved-CAPTCHA step of KaveriSearchBot.search_one (lines 680 to
709).  On the first search the bot has no saved code: the human solves
the CAPTCHA and submits, and the bot reads the typed code out of the form
and saves it.  On every later search the bot re-enters the saved code and
clicks search itself.  The result is the code submitted for this target,
whether a human solve happened, and the new saved state. -/
def searchOneCaptcha (saved : Option String) (manualEntry : String) :
    String × Bool × Option String :=
  match saved with
  | none => (manualEntry, true, some manualEntry)
  | some c => (c, false, some c)

/-- Observable state of a run of run_search over search_one: the saved
code, the code submitted for each target in order, how many human solves
happened, and the rows scraped per target. -/
structure CaptchaRunState where
  saved : Option String
  submissions : List String
  manualSolves : Nat
  rowsFound : List (List Nat)
deriving DecidableEq

/-- The run_search loop (lines 1445 to 1467) restricted to its CAPTCHA
behaviour: every target goes through the searchOneCaptcha step; the
portal then accepts or rejects the submitted code (the verdict), and a
rejected submission simply scrapes no result rows.  search_one never
inspects the page for a CAPTCHA-rejection message and never solves a
fresh CAPTCHA after the first target. -/
def captchaRunLoop (verdict : Int → String → Bool) (found : Int → List Nat)
    (manualEntry : String) : List Int → CaptchaRunState → CaptchaRunState
  | [], st => st
  | t :: rest, st =>
      let step := searchOneCaptcha st.saved manualEntry
      let rows := if verdict t step.1 then found t else []
      captchaRunLoop verdict found manualEntry rest
        { saved := step.2.2
          submissions := st.submissions ++ [step.1]
          manualSolves := st.manualSolves + (if step.2.1 then 1 else 0)
          rowsFound := st.rowsFound ++ [rows] }

/-- A whole batch run of the bot starting with no saved CAPTCHA. -/
def captchaRun (verdict : Int → String → Bool) (found : Int → List Nat)
    (manualEntry : String) (targets : List Int) : CaptchaRunState :=
  captchaRunLoop verdict found manualEntry targets ⟨none, [], 0, []⟩

end CitizenAssistant

namespace HybridSearch

/-!
kaveri_hybrid_search.py: session-file validity.
-/

/-- The saved session file as read by is_session_valid: whether the token
and cookie entries are truthy, and the saved_at timestamp in seconds when
present and parsable (none models both an absent field and a parse
failure, which the source swallows). -/
structure SessionFile where
  hasToken : Bool
  hasCookies : Bool
  savedAt : Option Nat
deriving DecidableEq

/-- is_session_valid (kaveri_hybrid_search.py lines 201 to 222): false
without token and cookies; otherwise, when a saved_at time is available,
the source compares the seconds attribute of the timedelta now minus
saved_at against 3600.  For now at least saved_at, that attribute is the
total age modulo 86400, because the days of the timedelta live in a
separate field. -/
def is_session_valid (s : SessionFile) (now : Nat) : Bool :=
  if !(s.hasToken || s.hasCookies) then false
  else
    match s.savedAt with
    | none => true
    | some t => if (now - t) % 86400 > 3600 then false else true

end HybridSearch

namespace SmartSearch

/-!
kaveri_smart_search.py: the batch loop of the Search tab.
-/

/-- A village target of the loop. -/
structure Village where
  code : Int
  name : String
deriving DecidableEq

/-- The triple returned by BrowserController.search_village: success flag,
scraped rows (payloads kept opaque), and an error message, empty on
success. -/
structure SearchReply where
  success : Bool
  rows : List Nat
  error : String
deriving DecidableEq

/-- A scraped row tagged with the village it came from, as written to the
output CSV. -/
structure TaggedRow where
  payload : Nat
  village : String
deriving DecidableEq

/-- Observable state of one batch run: the in-memory result list, the
rows appended so far to the output file, the per-target error list, the
session-expired flag and the villages whose search was attempted. -/
structure RunState where
  allResults : List TaggedRow
  fileRows : List TaggedRow
  errors : List String
  sessionExpired : Bool
  attempted : List Int
deriving DecidableEq

/-- The search loop of kaveri_smart_search.py lines 657 to 696.  Each
target is searched in list order; a SESSION_EXPIRED reply sets the flag
and breaks out of the loop; a successful reply extends the in-memory
results and, when rows came back, appends them to the output file at
once; any other failed reply with a nonempty message appends one entry to
the error list; then the loop moves to the next target. -/
def runLoop (reply : Village → SearchReply) : List Village → RunState → RunState
  | [], st => st
  | v :: rest, st =>
      if st.sessionExpired then st
      else
        let r := reply v
        if r.error == "SESSION_EXPIRED" then
          { st with sessionExpired := true, attempted := st.attempted ++ [v.code] }
        else if r.success then
          let tagged := r.rows.map (fun x => ⟨x, v.name⟩)
          runLoop reply rest
            { st with
              allResults := st.allResults ++ tagged
              fileRows := st.fileRows ++ (if r.rows.isEmpty then [] else tagged)
              attempted := st.attempted ++ [v.code] }
        else
          runLoop reply rest
            { st with
              errors := st.errors ++ (if r.error == "" then [] else [v.name ++ ": " ++ r.error])
              attempted := st.attempted ++ [v.code] }

/-- State at the start of a run. -/
def initState : RunState := ⟨[], [], [], false, []⟩

/-- One batch run of the Search tab over a village list. -/
def smartSearchRun (reply : Village → SearchReply) (villages : List Village) : RunState :=
  runLoop reply villages initState

/-- The rows a run persists for a list of targets: the tagged rows of
every successful target, in target order.  Used to state that the file
contents equal exactly the incremental appends of the processed prefix. -/
def persistedRows (reply : Village → SearchReply) (villages : List Village) : List TaggedRow :=
  villages.flatMap (fun v =>
    let r := reply v
    if r.error == "SESSION_EXPIRED" then []
    else if r.success then r.rows.map (fun x => ⟨x, v.name⟩)
    else [])

end SmartSearch

namespace DirectAPI

/-!
kaveri_direct_api.py: search_ec and batch_search.
-/

/-- A parsed NewECSearch response: its responseCode and the decoded
record list (payloads kept opaque). -/
structure ApiResp where
  responseCode : Int
  records : List Nat
deriving DecidableEq

/-- The environment of one batch run: whether a session token is loaded,
the CAPTCHA generate-and-solve outcome per village (error models a raised
solver or generate exception) and the HTTP search outcome per village
(error models a raised request or status exception). -/
structure EcEnv where
  hasToken : Bool
  captcha : String → Except String String
  response : String → Except String ApiResp

/-- search_ec (kaveri_direct_api.py lines 359 to 421): raises without a
session token; generates and solves a CAPTCHA, letting solver exceptions
propagate; posts the search, letting HTTP exceptions propagate; a
response with responseCode other than 1000 logs a warning and returns the
empty list; otherwise the decoded records are returned. -/
def search_ec (env : EcEnv) (vc : String) : Except String (List Nat) :=
  if !env.hasToken then .error "No session token. Please login first."
  else
    match env.captcha vc with
    | .error e => .error e
    | .ok _ =>
        match env.response vc with
        | .error e => .error e
        | .ok resp =>
            if resp.responseCode != 1000 then .ok []
            else .ok resp.records

/-- Observable state of batch_search: the combined results tagged with
their village code, the rows appended to the CSV so far, the logged
per-target errors, and the villages processed. -/
structure BatchState where
  allResults : List (Nat × String)
  csvRows : List (Nat × String)
  errorLog : List String
  processed : List String
deriving DecidableEq

/-- The loop of batch_search (lines 457 to 483): each village is
processed in list order; a successful search tags and collects its rows
and appends nonempty results to the CSV at once; a raised exception is
caught, logged as that village's error, and the loop continues with the
next village.  Nothing stops the loop early. -/
def batchLoop (env : EcEnv) : List String → BatchState → BatchState
  | [], st => st
  | vc :: rest, st =>
      match search_ec env vc with
      | .ok results =>
          let tagged := results.map (fun r => (r, vc))
          batchLoop env rest
            { st with
              allResults := st.allResults ++ tagged
              csvRows := st.csvRows ++ (if results.isEmpty then [] else tagged)
              processed := st.processed ++ [vc] }
      | .error e =>
          batchLoop env rest
            { st with
              errorLog := st.errorLog ++ [e]
              processed := st.processed ++ [vc] }

/-- One batch_search run from an empty output file. -/
def batch_search (env : EcEnv) (villageCodes : List String) : BatchState :=
  batchLoop env villageCodes ⟨[], [], [], []⟩

end DirectAPI

namespace KaveriIndexer

/-- A script on which every attempt raises: the endpoint is totally
unavailable. -/
def failingScript : AttemptScript TalukaJson := fun _ => none

/-- A script whose first attempt returns a zero-length list while every
later attempt would return one row: distinguishes accepting the empty
response from retrying it. -/
def emptyThenRowScript : AttemptScript TalukaJson :=
  fun i => if i = 0 then some [] else some [⟨7, "T"⟩]

/-- An environment in which every endpoint is totally unavailable. -/
def envAllFail : IndexerEnv :=
  ⟨fun _ => none, fun _ _ => none, fun _ _ => none, fun _ _ => none⟩

/-- An environment in which the districts endpoint answers with an empty
list and every child endpoint is unavailable. -/
def envEmptyRoot : IndexerEnv :=
  ⟨fun _ => some [], fun _ _ => none, fun _ _ => none, fun _ _ => none⟩

/-- An environment in which the taluka endpoint returns a zero-length
list on the first attempt and one row on any retry. -/
def envEmptyFirstTaluka : IndexerEnv :=
  ⟨fun _ => none, fun _ => emptyThenRowScript, fun _ _ => none, fun _ _ => none⟩

end KaveriIndexer

namespace CitizenAssistant

/-- A two-district location store in which every district carries one
full taluka, hobli and village chain. -/
def demoStore : LocationStore :=
  { districts := [⟨1, "A"⟩, ⟨2, "B"⟩]
    talukas := [⟨10, "TA", 1⟩, ⟨20, "TB", 2⟩]
    hoblis := [⟨100, "HA", 10⟩, ⟨200, "HB", 20⟩]
    villages := [⟨1000, "VA", 100⟩, ⟨2000, "VB", 200⟩] }

/-- A search config that fixes no level at all: no district given. -/
def cfgUnconstrained : SearchCfg := ⟨none, none, none, none, false, false, false⟩

/-- A store whose talukas table holds the same taluka row twice, so the
expansion reaches the same leaf through two candidate paths. -/
def dupStore : LocationStore :=
  { districts := [⟨1, "A"⟩]
    talukas := [⟨10, "T", 1⟩, ⟨10, "T", 1⟩]
    hoblis := [⟨100, "H", 10⟩]
    villages := [⟨1000, "V", 100⟩] }

/-- A crawl environment whose root districts call raises. -/
def crawlEnvRootFail : CrawlEnv :=
  ⟨.error "districts endpoint down", .ok [], fun _ => .ok [], fun _ => .ok [], fun _ => .ok []⟩

/-- A crawl environment with two districts in which the taluka fetch of
district 1 raises while district 2 answers with one taluka. -/
def crawlEnvSubtreeFail : CrawlEnv :=
  ⟨.ok [⟨some 1, "A"⟩, ⟨some 2, "B"⟩], .ok [],
   fun c => if c = 1 then .error "boom" else .ok [⟨some 20, "T"⟩],
   fun _ => .ok [], fun _ => .ok []⟩

/-- A portal verdict that rejects the submitted CAPTCHA code exactly on
target 2 and accepts it everywhere else. -/
def rejectSecondTarget : Int → String → Bool := fun t _ => t != 2

/-- One scraped row per target when the CAPTCHA is accepted. -/
def oneRowPerTarget : Int → List Nat := fun t => [t.toNat]

end CitizenAssistant

namespace SmartSearch

/-- The error entries a run records for a list of targets: one entry per
failed target with a nonempty message that is not the session-expired
marker. -/
def errorsOf (reply : Village → SearchReply) (villages : List Village) : List String :=
  villages.flatMap (fun v =>
    let r := reply v
    if r.error == "SESSION_EXPIRED" then []
    else if r.success then []
    else if r.error == "" then [] else [v.name ++ ": " ++ r.error])

/-- Three demo villages. -/
def demoVillages : List Village := [⟨1, "VA"⟩, ⟨2, "VB"⟩, ⟨3, "VC"⟩]

/-- A reply function under which village 1 succeeds with one row,
village 2 reports an expired session and village 3 would succeed. -/
def demoReply : Village → SearchReply :=
  fun v =>
    if v.code == 1 then ⟨true, [11], ""⟩
    else if v.code == 2 then ⟨false, [], "SESSION_EXPIRED"⟩
    else ⟨true, [33], ""⟩

end SmartSearch

namespace DirectAPI

/-- The rows a batch run collects: the tagged rows of every village whose
search returned normally, in list order. -/
def batchResultsOf (env : EcEnv) (villageCodes : List String) : List (Nat × String) :=
  villageCodes.flatMap (fun vc =>
    match search_ec env vc with
    | .ok rows => rows.map (fun r => (r, vc))
    | .error _ => [])

/-- The error entries a batch run logs: one entry per village whose
search raised. -/
def batchErrorsOf (env : EcEnv) (villageCodes : List String) : List String :=
  villageCodes.flatMap (fun vc =>
    match search_ec env vc with
    | .ok _ => []
    | .error e => [e])

/-- An environment under which the CAPTCHA solve raises for village B
only, and every completed search returns one record. -/
def demoEcEnv : EcEnv :=
  ⟨true,
   fun vc => if vc == "B" then .error "CAPTCHA solving timeout" else .ok "ZXC12",
   fun _ => .ok ⟨1000, [7]⟩⟩

end DirectAPI

namespace CitizenAssistant

/-- The taluka rows one district contributes to the crawl: none when its
code is missing or falsy or its fetch raised, its tagged rows otherwise. -/
def talukaStep (env : CrawlEnv) (d : DistrictJsonCA) : List TalukaCA :=
  match d.districtCode with
  | none => []
  | some dcode =>
      if dcode == 0 then []
      else
        match env.talukasResp dcode with
        | .ok rows => rows.map (fun t => ⟨t.talukCode, t.nameEn, dcode⟩)
        | .error _ => []

/-- The hobli rows one taluka contributes to the crawl. -/
def hobliStep (env : CrawlEnv) (t : TalukaCA) : List HobliCA :=
  match t.talukCode with
  | none => []
  | some tcode =>
      if tcode == 0 then []
      else
        match env.hoblisResp tcode with
        | .ok rows => rows.map (fun h => ⟨h.hoblicode, h.nameEn, tcode⟩)
        | .error _ => []

/-- The village rows one hobli contributes to the crawl. -/
def villageStep (env : CrawlEnv) (h : HobliCA) : List VillageCA :=
  match h.hoblicode with
  | none => []
  | some hcode =>
      if hcode == 0 then []
      else
        match env.villagesResp hcode with
        | .ok rows => rows.map (fun v => ⟨v.villagecode, v.nameEn, hcode⟩)
        | .error _ => []

/-- Reference formulation of the taluka level of the crawl, written from
the specification sentence: each subtree contributes its rows when its
fetch succeeds and nothing when it fails, and the walk always continues. -/
def crawlTalukas (env : CrawlEnv) (districts : List DistrictJsonCA) : List TalukaCA :=
  districts.flatMap (talukaStep env)

/-- Reference formulation of the hobli level of the crawl. -/
def crawlHoblis (env : CrawlEnv) (talukas : List TalukaCA) : List HobliCA :=
  talukas.flatMap (hobliStep env)

/-- Reference formulation of the village level of the crawl. -/
def crawlVillages (env : CrawlEnv) (hoblis : List HobliCA) : List VillageCA :=
  hoblis.flatMap (villageStep env)

end CitizenAssistant

open KaveriIndexer CitizenAssistant HybridSearch SmartSearch DirectAPI

/-- When every attempt in reach of the loop raises, the retry loop makes
all its attempts and falls back to the empty list. -/
theorem apiCallGo_allFail {ρ : Type} (script : AttemptScript ρ) (fuel : Nat) :
    ∀ (k : Nat), (∀ i, k ≤ i → i < k + fuel → script i = none) →
    apiCallGo script fuel k = ⟨[], k + fuel⟩ := by
  induction fuel with
  | zero => intro k _; rfl
  | succ n ih =>
      intro k h
      have hk : script k = none := h k (Nat.le_refl k) (by omega)
      unfold apiCallGo
      rw [hk]
      by_cases hn : n = 0
      · subst hn; simp
      · simp only [if_neg hn]
        rw [ih (k + 1) (fun i h1 h2 => h i (by omega) (by omega))]
        have harith : k + 1 + n = k + (n + 1) := by omega
        rw [harith]

/-- The retry loop returns the rows of the first non-raising attempt at
once, after exactly the failed attempts before it plus that one. -/
theorem apiCallGo_firstSuccess {ρ : Type} (script : AttemptScript ρ) (j : Nat) :
    ∀ (fuel k : Nat) (rows : List ρ), j < fuel →
      (∀ i, k ≤ i → i < k + j → script i = none) →
      script (k + j) = some rows →
      apiCallGo script fuel k = ⟨rows, k + j + 1⟩ := by
  induction j with
  | zero =>
      intro fuel k rows hfj _ hsucc
      cases fuel with
      | zero => omega
      | succ n =>
          unfold apiCallGo
          have hk : script k = some rows := hsucc
          rw [hk]
  | succ m ih =>
      intro fuel k rows hfj hfail hsucc
      cases fuel with
      | zero => omega
      | succ n =>
          have hk : script k = none := hfail k (Nat.le_refl k) (by omega)
          unfold apiCallGo
          rw [hk]
          have hn : n ≠ 0 := by omega
          simp only [if_neg hn]
          have hrec :=
            ih n (k + 1) rows (by omega)
              (fun i h1 h2 => hfail i (by omega) (by omega))
              (by
                have harith : k + 1 + m = k + (m + 1) := by omega
                rw [harith]; exact hsucc)
          rw [hrec]
          have harith : k + 1 + m + 1 = k + (m + 1) + 1 := by omega
          rw [harith]

/-- C3: a saved session with a token whose age is a full day, far beyond
the one-hour TTL, is still reported valid, and so is one aged a day plus
an hour.  The source compares the seconds field of the timedelta, the age
modulo 86400, against 3600, so any age whose remainder modulo one day is
at most an hour passes; the comment in the source says the check tests
whether the session is less than one hour old, which the behaviour
contradicts. -/
theorem C3_day_old_session_reported_valid :
    3600 < 86400 - 0 ∧
    is_session_valid ⟨true, false, some 0⟩ 86400 = true ∧
    3600 < 90000 - 0 ∧
    is_session_valid ⟨true, false, some 0⟩ 90000 = true := by
  exact ⟨by norm_num, rfl, by norm_num, rfl⟩

/-- C5: writing a taluka row whose district code 999 has no parent row
succeeds on the database set up by the indexer, because the connection
never enables foreign-key enforcement; the same write on a connection
with enforcement on would raise the referential-integrity error, and the
bulk write of the assistant accepts the same orphan row as well.  So a
child write with a missing parent succeeds instead of failing. -/
theorem C5_orphan_child_write_succeeds :
    setup_database.foreignKeysOn = false ∧
    setup_database.districts = [] ∧
    insertTaluka setup_database ⟨1, "T", 999⟩ =
      .ok ⟨false, [], [⟨1, "T", 999⟩], [], []⟩ ∧
    insertTaluka ⟨true, [], [], [], []⟩ ⟨1, "T", 999⟩ =
      .error "ReferentialIntegrityError" ∧
    write_sqlite ⟨[], [⟨some 1, "T", 999⟩], [], [], []⟩ =
      .ok ⟨false, [], [⟨some 1, "T", 999⟩], [], []⟩ := by
  exact ⟨rfl, rfl, rfl, rfl, rfl⟩

/-- C4 counterexample: on a script whose first attempt returns a
zero-length list and whose later attempts would return a row, api_call
stops after one single attempt and returns the empty list, and
fetch_talukas accepts it as no children; the zero-length response is not
retried. -/
theorem C4_counterexample :
    api_call emptyThenRowScript 3 = ⟨[], 1⟩ ∧
    emptyThenRowScript 1 = some [⟨7, "T"⟩] ∧
    fetch_talukas envEmptyFirstTaluka setup_database 5 = ([], setup_database) := by
  exact ⟨rfl, rfl, rfl⟩

/-- C4 amended: a zero-length response is accepted immediately, exactly
like any successful response: api_call returns the rows of the first
non-raising attempt and only raised attempts are retried; consequently a
zero-length first response makes fetch_talukas return no talukas and an
unchanged database, the same as a confirmed-empty child list. -/
theorem C4_empty_response_accepted_without_retry {ρ : Type}
    (script : AttemptScript ρ) (retries j : Nat) (rows : List ρ)
    (hj : j < retries)
    (hfail : ∀ i, i < j → script i = none)
    (hsucc : script j = some rows) :
    api_call script retries = ⟨rows, j + 1⟩ ∧
    ∀ (env : IndexerEnv) (db : Db) (dc : Int),
      env.talukaCalls dc 0 = some [] →
      fetch_talukas env db dc = ([], db) := by
  constructor
  · have h := apiCallGo_firstSuccess script j retries 0 rows hj
      (fun i h1 h2 => hfail i (by omega)) (by simpa using hsucc)
    simpa [api_call] using h
  · intro env db dc h0
    have h2 : api_call (env.talukaCalls dc) 3 = ⟨[], 1⟩ := by
      unfold api_call apiCallGo
      rw [h0]
    simp [fetch_talukas, h2]

/-- C4 witness: the amended statement applied to the concrete script of
the counterexample. -/
theorem C4_witness :
    api_call emptyThenRowScript 3 = ⟨[], 0 + 1⟩ ∧
    fetch_talukas envEmptyFirstTaluka setup_database 5 =
      ([], setup_database) := by
  have h := C4_empty_response_accepted_without_retry emptyThenRowScript 3 0 []
    (by norm_num) (fun i hi => absurd hi (Nat.not_lt_zero i)) rfl
  exact ⟨h.1, h.2 envEmptyFirstTaluka setup_database 5 rfl⟩

/-- C10: when every configured attempt raises, api_call returns the empty
list after its full attempt budget instead of propagating the exception;
the result rows are identical to those of a first attempt that answered
with a zero-length list, and a caller such as fetch_talukas gets back no
talukas and an unchanged database, exactly as for a confirmed-empty child
list. -/
theorem C10_api_call_absorbs_total_failure {ρ : Type}
    (script : AttemptScript ρ) (retries : Nat)
    (h : ∀ i, i < retries → script i = none) :
    api_call script retries = ⟨[], retries⟩ ∧
    (api_call script retries).rows =
      (api_call (fun _ => some ([] : List ρ)) retries).rows ∧
    ∀ (env : IndexerEnv) (db : Db) (dc : Int),
      (∀ i, i < 3 → env.talukaCalls dc i = none) →
      fetch_talukas env db dc = ([], db) := by
  have h1 : api_call script retries = ⟨[], retries⟩ := by
    have h0 := apiCallGo_allFail script retries 0 (fun i hi1 hi2 => h i (by omega))
    simpa [api_call] using h0
  refine ⟨h1, ?_, ?_⟩
  · rw [h1]
    cases retries with
    | zero => rfl
    | succ n => rfl
  · intro env db dc hfail
    have h2 : api_call (env.talukaCalls dc) 3 = ⟨[], 3⟩ := by
      have h0 := apiCallGo_allFail (env.talukaCalls dc) 3 0 (fun i hi1 hi2 => hfail i (by omega))
      simpa [api_call] using h0
    simp [fetch_talukas, h2]

/-- C10 witness: the theorem applied to the totally failing script and
environment. -/
theorem C10_witness :
    api_call failingScript 3 = ⟨[], 3⟩ ∧
    fetch_talukas envAllFail setup_database 5 = ([], setup_database) := by
  have h := C10_api_call_absorbs_total_failure failingScript 3 (fun i _ => rfl)
  exact ⟨h.1, h.2.2 envAllFail setup_database 5 (fun i _ => rfl)⟩

/-- The seen-set deduplication loop emits a key at most once, and a key
already in the seen set never at all. -/
theorem dedupCombos_count (l : List Combo) :
    ∀ (seen : List (Int × Int × Int × Int)) (k : Int × Int × Int × Int),
      (k ∈ seen → (dedupCombos seen l).countP (fun c => comboKey c == k) = 0) ∧
      (dedupCombos seen l).countP (fun c => comboKey c == k) ≤ 1 := by
  induction l with
  | nil => intro seen k; simp [dedupCombos]
  | cons c rest ih =>
      intro seen k
      by_cases hc : comboKey c ∈ seen
      · simp only [dedupCombos, if_pos hc]
        exact ih seen k
      · simp only [dedupCombos, if_neg hc, List.countP_cons]
        by_cases hk : comboKey c = k
        · have htail := (ih (comboKey c :: seen) k).1 (by rw [hk]; exact List.mem_cons_self _ _)
          rw [htail]
          constructor
          · intro hmem
            exact absurd (hk ▸ hmem) hc
          · simp [hk]
        · have hbeq : (comboKey c == k) = false := by
            simp [hk]
          rw [hbeq]
          simp only [if_neg (by simp : ¬False), Bool.false_eq_true, if_false, Nat.add_zero]
          constructor
          · intro hmem
            exact (ih (comboKey c :: seen) k).1 (List.mem_cons_of_mem _ hmem)
          · exact (ih (comboKey c :: seen) k).2

/-- The seen-set loop agrees with the reference first-seen filter: it
returns exactly the candidates whose key is outside the seen set, keeping
only the first occurrence of each key, in candidate order. -/
theorem dedupCombos_eq_keepFirst (l : List Combo) :
    ∀ seen, dedupCombos seen l =
      keepFirstByKey (l.filter (fun c => decide (comboKey c ∉ seen))) := by
  induction l with
  | nil => intro seen; simp [dedupCombos, keepFirstByKey]
  | cons c rest ih =>
      intro seen
      by_cases hc : comboKey c ∈ seen
      · have hdec : decide (comboKey c ∉ seen) = false := by simp [hc]
        simp only [dedupCombos, if_pos hc, List.filter_cons, hdec, Bool.false_eq_true, if_false]
        exact ih seen
      · have hdec : decide (comboKey c ∉ seen) = true := by simp [hc]
        simp only [dedupCombos, if_neg hc, List.filter_cons, hdec, if_true]
        rw [keepFirstByKey]
        congr 1
        rw [ih (comboKey c :: seen)]
        congr 1
        rw [List.filter_filter]
        apply List.filter_congr
        intro x _
        have hbeq : (comboKey x == comboKey c) = decide (comboKey x = comboKey c) := by
          by_cases h : comboKey x = comboKey c <;> simp [h]
        rw [hbeq]
        simp [List.mem_cons, not_or, Decidable.not_not]

/-- C2: for every store and filter, the expander output contains each
code 4-tuple at most once; the output is exactly the first-seen filter of
the pre-deduplication candidate list, so the retained occurrences keep
candidate order; and whenever the duplicate report fires, the reported
count is exactly the number of removed candidates. -/
theorem C2_expander_deduplicates (s : LocationStore) (cfg : SearchCfg) :
    (∀ k : Int × Int × Int × Int,
      (build_location_combinations s cfg).countP (fun c => comboKey c == k) ≤ 1) ∧
    build_location_combinations s cfg = keepFirstByKey (candidateCombos s cfg) ∧
    ∀ n, duplicateReport s cfg = some n →
      0 < n ∧
      (build_location_combinations s cfg).length + n = (candidateCombos s cfg).length := by
  refine ⟨?_, ?_, ?_⟩
  · intro k
    exact (dedupCombos_count (candidateCombos s cfg) [] k).2
  · have h := dedupCombos_eq_keepFirst (candidateCombos s cfg) []
    simpa [build_location_combinations] using h
  · intro n hn
    unfold duplicateReport at hn
    by_cases hlt :
        (build_location_combinations s cfg).length < (candidateCombos s cfg).length
    · rw [if_pos hlt] at hn
      have hn2 : (candidateCombos s cfg).length - (build_location_combinations s cfg).length = n :=
        Option.some_injective _ hn
      constructor
      · omega
      · omega
    · rw [if_neg hlt] at hn
      exact absurd hn (by simp)

/-- C2 witness: on a store whose talukas table holds the same row twice,
the unconstrained expansion builds two candidates for the one leaf, the
report fires with count one, and the theorem confirms the count. -/
theorem C2_witness :
    duplicateReport dupStore cfgUnconstrained = some 1 ∧
    0 < 1 ∧
    (build_location_combinations dupStore cfgUnconstrained).length + 1 =
      (candidateCombos dupStore cfgUnconstrained).length := by
  refine ⟨rfl, (C2_expander_deduplicates dupStore cfgUnconstrained).2.2 1 rfl⟩

/-- C6 counterexample: with no district code supplied, the expander does
not error: it returns a target list that spans every district of the
store, here both district 1 and district 2. -/
theorem C6_counterexample :
    cfgUnconstrained.districtCode = none ∧
    build_location_combinations demoStore cfgUnconstrained =
      [⟨1, 10, 100, 1000, "A", "TA", "HA", "VA"⟩,
       ⟨2, 20, 200, 2000, "B", "TB", "HB", "VB"⟩] := by
  exact ⟨rfl, by decide⟩

/-- C6 amended: when the filter carries no truthy district code, the
expander raises no error and expands across every district of the store:
the district rows it iterates over are exactly the full district list of
the repository. -/
theorem C6_no_district_expands_every_district (s : LocationStore) (cfg : SearchCfg)
    (h : Kaveri.truthyInt cfg.districtCode = false) :
    districtRowsFor s cfg = repoDistricts s ∧
    build_location_combinations s cfg =
      dedupCombos []
        ((repoDistricts s).flatMap (fun d =>
          (talukaRowsFor s cfg d.code).flatMap (fun t =>
            (hobliRowsFor s cfg t.code).flatMap (fun h2 =>
              (villageRowsFor s cfg h2.code).map (fun v =>
                ⟨d.code, t.code, h2.code, v.code,
                 d.nameEn, t.nameEn, h2.nameEn, v.nameEn⟩))))) := by
  have h1 : districtRowsFor s cfg = repoDistricts s := by
    unfold districtRowsFor
    rw [h]
    simp
  refine ⟨h1, ?_⟩
  unfold build_location_combinations candidateCombos
  rw [h1]

/-- C6 witness: the amended statement applied to the demo store and the
unconstrained filter. -/
theorem C6_witness :
    districtRowsFor demoStore cfgUnconstrained = repoDistricts demoStore :=
  (C6_no_district_expands_every_district demoStore cfgUnconstrained rfl).1

/-- C9 counterexample: a three-target run with the saved CAPTCHA rejected
at target 2.  Exactly one human solve happens, at target 1; target 2 and
target 3 both submit the original saved code unchanged, so no fresh
CAPTCHA is solved for target 2, and target 2 scrapes no rows while
target 3 keeps reusing the original, not a new, solution. -/
theorem C9_counterexample :
    rejectSecondTarget 2 "AB12" = false ∧
    (captchaRun rejectSecondTarget oneRowPerTarget "AB12" [1, 2, 3]).manualSolves = 1 ∧
    (captchaRun rejectSecondTarget oneRowPerTarget "AB12" [1, 2, 3]).submissions =
      ["AB12", "AB12", "AB12"] ∧
    (captchaRun rejectSecondTarget oneRowPerTarget "AB12" [1, 2, 3]).rowsFound =
      [[1], [], [3]] := by
  exact ⟨rfl, rfl, rfl, rfl⟩

/-- Once a code is saved, the loop re-submits it unchanged for every
remaining target and performs no further human solve, whatever the
verdicts are. -/
theorem captchaRunLoop_reuse (verdict : Int → String → Bool) (found : Int → List Nat)
    (entry c : String) (targets : List Int) :
    ∀ st : CaptchaRunState, st.saved = some c →
      (captchaRunLoop verdict found entry targets st).submissions =
        st.submissions ++ List.replicate targets.length c ∧
      (captchaRunLoop verdict found entry targets st).manualSolves = st.manualSolves := by
  induction targets with
  | nil => intro st _; simp [captchaRunLoop]
  | cons t rest ih =>
      intro st h
      simp only [captchaRunLoop, h, searchOneCaptcha]
      rw [(ih _ rfl).1, (ih _ rfl).2]
      constructor
      · simp only [List.append_assoc, List.length_cons, List.replicate_succ]
        rfl
      · simp

/-- C9 amended: the bot never reacts to a CAPTCHA rejection.  The code
captured at the first target is re-submitted unchanged for every
subsequent target regardless of the portal verdicts, and at most one
human solve happens in a whole run; a rejected reuse merely scrapes no
rows for that target. -/
theorem C9_saved_captcha_reused_unconditionally (verdict : Int → String → Bool)
    (found : Int → List Nat) (entry : String) (targets : List Int) :
    (captchaRun verdict found entry targets).submissions =
      List.replicate targets.length entry ∧
    (captchaRun verdict found entry targets).manualSolves = min 1 targets.length := by
  cases targets with
  | nil => simp [captchaRun, captchaRunLoop]
  | cons t rest =>
      unfold captchaRun
      simp only [captchaRunLoop, searchOneCaptcha]
      have hrec := captchaRunLoop_reuse verdict found entry entry rest
        { saved := some entry
          submissions := [] ++ [entry]
          manualSolves := 0 + (if True then 1 else 0)
          rowsFound := [] ++ [if verdict t entry then found t else []] } rfl
      simp only at hrec
      rw [hrec.1, hrec.2]
      constructor
      · simp [List.replicate_succ]
      · simp [Nat.min_def]

/-- Collapsing the conditional file append of the loop: when no rows came
back the append is empty anyway, so the file gains exactly the tagged
rows. -/
theorem fileAppend_eq (rows : List Nat) (name : String) :
    (if rows.isEmpty then ([] : List TaggedRow) else rows.map (fun x => ⟨x, name⟩)) =
      rows.map (fun x => ⟨x, name⟩) := by
  cases rows <;> simp

/-- Running the loop over a prefix free of session-expired replies
processes every prefix target in order, appending its results to memory
and file and its error entries to the error list, and then continues with
the remaining targets. -/
theorem runLoop_clean_segment (reply : Village → SearchReply) (pre : List Village) :
    ∀ (rest : List Village) (st : RunState), st.sessionExpired = false →
      (∀ u ∈ pre, (reply u).error ≠ "SESSION_EXPIRED") →
      runLoop reply (pre ++ rest) st =
        runLoop reply rest
          ⟨st.allResults ++ persistedRows reply pre,
           st.fileRows ++ persistedRows reply pre,
           st.errors ++ errorsOf reply pre,
           false,
           st.attempted ++ pre.map (fun u => u.code)⟩ := by
  induction pre with
  | nil =>
      intro rest st hst hpre
      obtain ⟨a, f, e, sx, att⟩ := st
      simp only [RunState.sessionExpired] at hst
      subst hst
      simp [persistedRows, errorsOf]
  | cons v pre2 ih =>
      intro rest st hst hpre
      have hv : (reply v).error ≠ "SESSION_EXPIRED" := hpre v (List.mem_cons_self _ _)
      have hvb : ((reply v).error == "SESSION_EXPIRED") = false := by
        simpa using hv
      have hpre2 : ∀ u ∈ pre2, (reply u).error ≠ "SESSION_EXPIRED" :=
        fun u hu => hpre u (List.mem_cons_of_mem _ hu)
      simp only [List.cons_append, runLoop, hst, Bool.false_eq_true, if_false, hvb]
      by_cases hs : (reply v).success = true
      · simp only [hs, if_true, List.append_eq]
        rw [ih rest _ (by simp) hpre2]
        congr 1
        cases hrows : (reply v).rows <;>
          simp [persistedRows, errorsOf, hvb, hs, hv, hrows, List.append_assoc]
      · rw [if_neg hs]
        simp only [List.append_eq]
        rw [ih rest _ (by simp) hpre2]
        congr 1
        simp [persistedRows, errorsOf, hvb, hs, hv, List.append_assoc]

/-- C1: in a batch run whose prefix is free of session expiry, a
session-expired reply at target k halts the run exactly there.  The final
state records as attempted precisely the prefix targets plus target k,
so no later target is attempted; the output file holds exactly the rows
that the successful prefix targets appended, each persisted right after
its own call; the error list holds exactly the prefix errors; and the run
outcome carries the session-expired flag. -/
theorem C1_session_expiry_halts_run (reply : Village → SearchReply)
    (pre : List Village) (v : Village) (post : List Village)
    (hpre : ∀ u ∈ pre, (reply u).error ≠ "SESSION_EXPIRED")
    (hv : (reply v).error = "SESSION_EXPIRED") :
    smartSearchRun reply (pre ++ v :: post) =
      ⟨persistedRows reply pre, persistedRows reply pre,
       errorsOf reply pre, true,
       pre.map (fun u => u.code) ++ [v.code]⟩ := by
  unfold smartSearchRun initState
  rw [runLoop_clean_segment reply pre (v :: post) _ rfl hpre]
  simp only [runLoop, hv, List.nil_append]
  simp

/-- C1 witness: a three-target run in which target 1 succeeds with one
row, target 2 reports session expiry and target 3 is never attempted. -/
theorem C1_witness :
    smartSearchRun demoReply demoVillages =
      ⟨[⟨11, "VA"⟩], [⟨11, "VA"⟩], [], true, [1, 2]⟩ := by
  have h := C1_session_expiry_halts_run demoReply [⟨1, "VA"⟩] ⟨2, "VB"⟩ [⟨3, "VC"⟩]
    (by decide) rfl
  exact h.trans (by decide)

/-- The batch loop processes every village in order: each village adds
its tagged results to memory and file when the search returns, or its
exception text to the error log when it raises, and the loop never stops
early. -/
theorem batchLoop_spec (env : EcEnv) (vcs : List String) :
    ∀ st : BatchState,
      batchLoop env vcs st =
        ⟨st.allResults ++ batchResultsOf env vcs,
         st.csvRows ++ batchResultsOf env vcs,
         st.errorLog ++ batchErrorsOf env vcs,
         st.processed ++ vcs⟩ := by
  induction vcs with
  | nil => intro st; simp [batchLoop, batchResultsOf, batchErrorsOf]
  | cons vc rest ih =>
      intro st
      simp only [batchLoop]
      cases hvc : search_ec env vc with
      | ok results =>
          dsimp only
          rw [ih]
          congr 1 <;>
            cases hrows : results <;>
              simp [batchResultsOf, batchErrorsOf, hvc, hrows, List.append_assoc]
      | error e =>
          dsimp only
          rw [ih]
          congr 1 <;> simp [batchResultsOf, batchErrorsOf, hvc, List.append_assoc]

/-- C7: a raised CAPTCHA solve or request exception at one village is
non-fatal to the batch: every village of the run, before and after it, is
still processed in list order, the exception text is recorded in the
error log at that village position, and the results of all other
villages are still collected. -/
theorem C7_per_target_errors_nonfatal (env : EcEnv) (pre : List String) (vc : String)
    (post : List String) (e : String)
    (h : search_ec env vc = .error e) :
    (batch_search env (pre ++ vc :: post)).processed = pre ++ vc :: post ∧
    (batch_search env (pre ++ vc :: post)).errorLog =
      batchErrorsOf env pre ++ e :: batchErrorsOf env post ∧
    (batch_search env (pre ++ vc :: post)).allResults =
      batchResultsOf env pre ++ batchResultsOf env post := by
  unfold batch_search
  rw [batchLoop_spec env (pre ++ vc :: post) ⟨[], [], [], []⟩]
  simp [batchErrorsOf, batchResultsOf, h]

/-- C7 witness: a three-village batch in which the CAPTCHA solve raises
for village B only; villages A and C are still searched and their rows
collected, and the error is logged. -/
theorem C7_witness :
    (batch_search demoEcEnv ["A", "B", "C"]).processed = ["A", "B", "C"] ∧
    (batch_search demoEcEnv ["A", "B", "C"]).errorLog = ["CAPTCHA solving timeout"] ∧
    (batch_search demoEcEnv ["A", "B", "C"]).allResults = [(7, "A"), (7, "C")] := by
  have h := C7_per_target_errors_nonfatal demoEcEnv ["A"] "B" ["C"]
    "CAPTCHA solving timeout" rfl
  exact ⟨h.1, h.2.1.trans (by decide), h.2.2.trans (by decide)⟩

/-- Folding a per-element append is the append of the flat map. -/
theorem foldl_appendStep {α β : Type} (g : α → List β) (l : List α) :
    ∀ init : List β, l.foldl (fun acc x => acc ++ g x) init = init ++ l.flatMap g := by
  induction l with
  | nil => intro init; simp
  | cons x xs ih =>
      intro init
      simp only [List.foldl_cons, List.flatMap_cons]
      rw [ih]
      simp [List.append_assoc]

/-- The taluka fold of build_location_hierarchy equals the reference
flat-map formulation. -/
theorem crawl_talukas_fold (env : CrawlEnv) (districts : List DistrictJsonCA) :
    ∀ init,
      districts.foldl
        (fun acc d =>
          match d.districtCode with
          | none => acc
          | some dcode =>
              if dcode == 0 then acc
              else
                match env.talukasResp dcode with
                | .ok rows => acc ++ rows.map (fun t => ⟨t.talukCode, t.nameEn, dcode⟩)
                | .error _ => acc) init =
      init ++ crawlTalukas env districts := by
  intro init
  rw [List.foldl_ext (g := fun acc d => acc ++ talukaStep env d)]
  · exact foldl_appendStep (talukaStep env) districts init
  · intro acc d _
    cases hdc : d.districtCode with
    | none => simp [talukaStep, hdc]
    | some dcode =>
        simp only [talukaStep, hdc]
        by_cases h0 : (dcode == 0) = true
        · simp [h0]
        · simp only [Bool.not_eq_true] at h0
          cases hres : env.talukasResp dcode <;> simp [hres, h0]

/-- The hobli fold of build_location_hierarchy equals the reference
flat-map formulation. -/
theorem crawl_hoblis_fold (env : CrawlEnv) (talukas : List TalukaCA) :
    ∀ init,
      talukas.foldl
        (fun acc t =>
          match t.talukCode with
          | none => acc
          | some tcode =>
              if tcode == 0 then acc
              else
                match env.hoblisResp tcode with
                | .ok rows => acc ++ rows.map (fun h => ⟨h.hoblicode, h.nameEn, tcode⟩)
                | .error _ => acc) init =
      init ++ crawlHoblis env talukas := by
  intro init
  rw [List.foldl_ext (g := fun acc t => acc ++ hobliStep env t)]
  · exact foldl_appendStep (hobliStep env) talukas init
  · intro acc t _
    cases htc : t.talukCode with
    | none => simp [hobliStep, htc]
    | some tcode =>
        simp only [hobliStep, htc]
        by_cases h0 : (tcode == 0) = true
        · simp [h0]
        · simp only [Bool.not_eq_true] at h0
          cases hres : env.hoblisResp tcode <;> simp [hres, h0]

/-- The village fold of build_location_hierarchy equals the reference
flat-map formulation. -/
theorem crawl_villages_fold (env : CrawlEnv) (hoblis : List HobliCA) :
    ∀ init,
      hoblis.foldl
        (fun acc h =>
          match h.hoblicode with
          | none => acc
          | some hcode =>
              if hcode == 0 then acc
              else
                match env.villagesResp hcode with
                | .ok rows => acc ++ rows.map (fun v => ⟨v.villagecode, v.nameEn, hcode⟩)
                | .error _ => acc) init =
      init ++ crawlVillages env hoblis := by
  intro init
  rw [List.foldl_ext (g := fun acc h => acc ++ villageStep env h)]
  · exact foldl_appendStep (villageStep env) hoblis init
  · intro acc h _
    cases hhc : h.hoblicode with
    | none => simp [villageStep, hhc]
    | some hcode =>
        simp only [villageStep, hhc]
        by_cases h0 : (hcode == 0) = true
        · simp [h0]
        · simp only [Bool.not_eq_true] at h0
          cases hres : env.villagesResp hcode <;> simp [hres, h0]

/-- C8 counterexample: when the root districts endpoint of the indexer is
totally unavailable, index_all is not fatal: it runs to completion with
zero counts and an empty database, bit for bit the same outcome as a root
call that answers with zero districts. -/
theorem C8_counterexample :
    index_all envAllFail none = (⟨0, 0, 0, 0⟩, setup_database) ∧
    index_all envAllFail none = index_all envEmptyRoot none := by
  exact ⟨rfl, rfl⟩

/-- C8 amended: in build_location_hierarchy the asymmetry holds: a raised
root districts call aborts the whole crawl with that error, while with a
successful root call the crawl always completes, every failed subtree
fetch contributing nothing and every successful one its rows.  In the
indexer, however, a totally unavailable root districts endpoint is
absorbed: index_all completes normally with zero counts, behaving exactly
as if there were zero districts. -/
theorem C8_crawl_failure_semantics :
    (∀ (env : CrawlEnv) (e : String),
      env.districtsResp = .error e → build_location_hierarchy env = .error e) ∧
    (∀ (env : CrawlEnv) (districts : List DistrictJsonCA),
      env.districtsResp = .ok districts →
      build_location_hierarchy env =
        .ok ⟨districts,
             crawlTalukas env districts,
             crawlHoblis env (crawlTalukas env districts),
             crawlVillages env (crawlHoblis env (crawlTalukas env districts)),
             match env.propertyTypesResp with
             | .ok l => l
             | .error _ => []⟩) ∧
    (∀ env : IndexerEnv, (∀ i, i < 3 → env.districtCalls i = none) →
      ∀ specific, index_all env specific = (⟨0, 0, 0, 0⟩, setup_database)) := by
  refine ⟨?_, ?_, ?_⟩
  · intro env e h
    unfold build_location_hierarchy
    rw [h]
  · intro env districts h
    unfold build_location_hierarchy
    rw [h]
    dsimp only
    rw [crawl_talukas_fold env districts []]
    simp only [List.nil_append]
    rw [crawl_hoblis_fold env (crawlTalukas env districts) []]
    simp only [List.nil_append]
    rw [crawl_villages_fold env (crawlHoblis env (crawlTalukas env districts)) []]
    simp only [List.nil_append]
  · intro env hfail specific
    have h2 : api_call env.districtCalls 3 = ⟨[], 3⟩ := by
      have h0 := apiCallGo_allFail env.districtCalls 3 0 (fun i hi1 hi2 => hfail i (by omega))
      simpa [api_call] using h0
    have hfd : fetch_districts env setup_database = ([], setup_database) := by
      simp [fetch_districts, h2]
    unfold index_all
    dsimp only
    rw [hfd]
    cases htr : Kaveri.truthyInt specific <;> simp [htr]

/-- C8 witness: the three parts applied to the failing-root crawl
environment, the failing-subtree crawl environment, and the unavailable
indexer environment. -/
theorem C8_witness :
    build_location_hierarchy crawlEnvRootFail = .error "districts endpoint down" ∧
    build_location_hierarchy crawlEnvSubtreeFail =
      .ok ⟨[⟨some 1, "A"⟩, ⟨some 2, "B"⟩],
           crawlTalukas crawlEnvSubtreeFail [⟨some 1, "A"⟩, ⟨some 2, "B"⟩],
           crawlHoblis crawlEnvSubtreeFail
             (crawlTalukas crawlEnvSubtreeFail [⟨some 1, "A"⟩, ⟨some 2, "B"⟩]),
           crawlVillages crawlEnvSubtreeFail
             (crawlHoblis crawlEnvSubtreeFail
               (crawlTalukas crawlEnvSubtreeFail [⟨some 1, "A"⟩, ⟨some 2, "B"⟩])),
           []⟩ ∧
    index_all envAllFail none = (⟨0, 0, 0, 0⟩, setup_database) := by
  refine ⟨C8_crawl_failure_semantics.1 crawlEnvRootFail "districts endpoint down" rfl,
    C8_crawl_failure_semantics.2.1 crawlEnvSubtreeFail [⟨some 1, "A"⟩, ⟨some 2, "B"⟩] rfl,
    C8_crawl_failure_semantics.2.2 envAllFail (fun i _ => rfl) none⟩
